import Mathlib

/-!
Shallow embedding of the state-synchronization core of the `ppa_contatto`
integration (files `api.py`, `config_flow.py`, `__init__.py`, `const.py`),
together with proofs about its reconnection backoff, token-expiry
detection, authenticated-request retry flow, auth locking, report
scanning, and realtime event reconciliation.
-/

deriving instance DecidableEq for Except

namespace PPAContatto

/-- `const.py`: `WEBSOCKET_RECONNECT_DELAY = 5` (seconds). -/
def WEBSOCKET_RECONNECT_DELAY : Nat := 5

/-- `const.py`: `WEBSOCKET_MAX_RETRIES = 5`. -/
def WEBSOCKET_MAX_RETRIES : Nat := 5

/-- `const.py`: `WEBSOCKET_BACKOFF_RESET_TIME = 300` (seconds). -/
def WEBSOCKET_BACKOFF_RESET_TIME : Nat := 300

/-- The delay computed by `ensure_websocket_connected` (`api.py` lines
386-391) as a function of the value of `self._websocket_reconnect_count`
read at the start of the call (after the stability-window reset):
if the count is below `WEBSOCKET_MAX_RETRIES` the fixed delay is used,
otherwise the fixed delay times `min(2 ** (count - WEBSOCKET_MAX_RETRIES), 60)`. -/
def reconnectDelay (count : Nat) : Nat :=
  if count < WEBSOCKET_MAX_RETRIES then
    WEBSOCKET_RECONNECT_DELAY
  else
    WEBSOCKET_RECONNECT_DELAY * min (2 ^ (count - WEBSOCKET_MAX_RETRIES)) 60

/-- Substring search over character lists: does `needle` occur
contiguously in `hay`? -/
def listContains : List Char → List Char → Bool
  | [], needle => needle.isEmpty
  | c :: t, needle => needle.isPrefixOf (c :: t) || listContains t needle

/-- Embedding of Python's `needle in hay` on strings. -/
def strContains (hay needle : String) : Bool :=
  listContains hay.data needle.data

/-- ASCII lower-casing of one character (embeds Python's `str.lower()`;
the phrases the code compares against are ASCII). -/
def lowerChar (c : Char) : Char :=
  if 65 ≤ c.toNat ∧ c.toNat ≤ 90 then Char.ofNat (c.toNat + 32) else c

/-- ASCII lower-casing of a string, embedding Python's `str.lower()`. -/
def strToLower (s : String) : String :=
  ⟨s.data.map lowerChar⟩

/-- The body of a non-success HTTP response, as seen by
`_is_token_expired_error` (`api.py` lines 176-196).  `json.loads` either
yields a dict (whose `"name"`/`"message"` entries we model as optional
strings, `.get` defaulting to `""`), yields a non-dict value (so `.get`
raises `AttributeError`, caught by the handler), or raises
`JSONDecodeError`; in the latter two cases only the raw text is used. -/
inductive ErrorText where
  | jsonObj (raw : String) (name : Option String) (message : Option String)
  | jsonNonObj (raw : String)
  | notJson (raw : String)
deriving DecidableEq

/-- Raw text of the response body, whatever its shape. -/
def ErrorText.raw : ErrorText → String
  | .jsonObj r _ _ => r
  | .jsonNonObj r => r
  | .notJson r => r

/-- `_is_token_expired_error(status_code, error_text)` from `api.py`:
401/400 are expiry outright; 500 consults the body (structured
`name == "TokenExpiredError"` or `"jwt expired"` in the lowered message;
on a parse/attribute error, `"jwt expired"` or `"token expired"` in the
lowered raw text); everything else is not expiry. -/
def isTokenExpiredError (statusCode : Nat) (errorText : ErrorText) : Bool :=
  if statusCode = 401 ∨ statusCode = 400 then
    true
  else if statusCode = 500 then
    match errorText with
    | .jsonObj _ name message =>
        let errorName := name.getD ""
        let errorMessage := message.getD ""
        errorName = "TokenExpiredError" || strContains (strToLower errorMessage) "jwt expired"
    | .jsonNonObj raw =>
        strContains (strToLower raw) "jwt expired" || strContains (strToLower raw) "token expired"
    | .notJson raw =>
        strContains (strToLower raw) "jwt expired" || strContains (strToLower raw) "token expired"
  else
    false

/-- Written from the spec's words: the body "names a token/JWT-expiry
error either by structured error code or by a case-insensitive substring
match on the known phrases". -/
def specBodyNamesExpiry : ErrorText → Bool
  | .jsonObj _ name message =>
      name.getD "" = "TokenExpiredError"
        || strContains (strToLower (message.getD "")) "jwt expired"
  | .jsonNonObj raw =>
      strContains (strToLower raw) "jwt expired" || strContains (strToLower raw) "token expired"
  | .notJson raw =>
      strContains (strToLower raw) "jwt expired" || strContains (strToLower raw) "token expired"

/-- Written from the spec's words: expired iff status 401 or 400
outright, or status 500 with a body naming a token/JWT-expiry error. -/
def specIsTokenExpired (statusCode : Nat) (errorText : ErrorText) : Bool :=
  (statusCode = 401 || statusCode = 400)
    || (statusCode = 500 && specBodyNamesExpiry errorText)

/-- Outcome of the login POST performed by `authenticate` (`api.py` lines
81-117).  Every non-`ok` outcome makes `authenticate` raise
`PPAContattoAuthError`: a non-200 status, a network-level
`aiohttp.ClientError`, an invalid-JSON body, or a 200 body without an
`accessToken`. -/
inductive AuthOutcome where
  | ok
  | httpReject (status : Nat)
  | networkError
  | badJson
  | noToken
deriving DecidableEq

/-- Outcome of the `GET /devices` step of the connection test, i.e. of
`get_devices` via `_make_authenticated_request`.  Timeouts, connection
errors and other network errors are all raised as `PPAContattoAPIError`
(`api.py` lines 457-465); `okNonList` is a 200 response whose JSON is
not a list (checked by `test_connection`). -/
inductive DevicesOutcome where
  | okList
  | okNonList
  | apiError
  | timeoutErr
  | connectErr
  | authErr
deriving DecidableEq

/-- The exceptions that can cross the functions modelled here. -/
inductive PyExc where
  | authError
  | apiError
  | invalidAuth
  | cannotConnect
  | otherExc
deriving DecidableEq

/-- A setup-time scenario: what the auth endpoint and the devices
endpoint would answer. -/
structure SetupScenario where
  auth : AuthOutcome
  devices : DevicesOutcome
deriving DecidableEq

/-- `authenticate` as seen by its callers: returns `True` on success,
raises `PPAContattoAuthError` on every failure. -/
def authExc : AuthOutcome → Except PyExc Bool
  | .ok => .ok true
  | _ => .error .authError

/-- The devices step as seen by `test_connection`: either a response
(with the flag `isinstance(devices, list)`) or a raised exception. -/
def getDevicesExc : DevicesOutcome → Except PyExc Bool
  | .okList => .ok true
  | .okNonList => .ok false
  | .apiError => .error .apiError
  | .timeoutErr => .error .apiError
  | .connectErr => .error .apiError
  | .authErr => .error .authError

/-- `test_connection` (`api.py` lines 635-665): clears tokens,
authenticates, lists devices; its own `except` clauses catch
`PPAContattoAuthError`, `PPAContattoAPIError` and any other exception
and return `False`; returns `True` only when both steps succeed and the
devices response is a list.  It never raises. -/
def testConnection (s : SetupScenario) : Bool :=
  match authExc s.auth with
  | .error _ => false
  | .ok _ =>
    match getDevicesExc s.devices with
    | .error _ => false
    | .ok isList => isList

/-- `validate_input` (`config_flow.py` lines 28-47).  The `try` body runs
`test_connection` (which never raises) and raises `InvalidAuth` when it
returns `False`; the handler cascade then re-raises: a
`PPAContattoAuthError` as `InvalidAuth`, a `PPAContattoAPIError` as
`CannotConnect`, and any other `Exception` — which includes the
`InvalidAuth` just raised in the body, since `InvalidAuth` derives from
`HomeAssistantError`, an `Exception` — as `CannotConnect`. -/
def validateInput (s : SetupScenario) : Except PyExc Unit :=
  let body : Except PyExc Unit :=
    if testConnection s then .ok () else .error .invalidAuth
  match body with
  | .ok _ => .ok ()
  | .error e =>
    if e = .authError then .error .invalidAuth
    else if e = .apiError then .error .cannotConnect
    else .error .cannotConnect

/-- `async_step_user`'s mapping of a raised exception to the form-error
key shown to the user (`config_flow.py` lines 62-70). -/
def stepUserErrorKey (e : PyExc) : String :=
  if e = .cannotConnect then "cannot_connect"
  else if e = .invalidAuth then "invalid_auth"
  else "unknown"

/-- What `_refresh_access_token` does for the retry in
`_make_authenticated_request`: it returns `True` (refresh succeeded or
the fallback `authenticate` succeeded), or the fallback `authenticate`
raises `PPAContattoAuthError`, which propagates.  `returnedFalse` keeps
the call site's dead `else` branch representable. -/
inductive RefreshOutcome where
  | succeeded
  | returnedFalse
  | raisedAuth
deriving DecidableEq

/-- A non-success-capable HTTP response: status plus body text. -/
structure HttpResponse where
  status : Nat
  body : ErrorText
deriving DecidableEq

/-- Environment of one `_make_authenticated_request` call: the first
response, what a refresh would do, the token it would install, and the
response to a retried request. -/
structure RequestEnv where
  resp1 : HttpResponse
  refresh : RefreshOutcome
  tokenAfterRefresh : String
  resp2 : HttpResponse
deriving DecidableEq

/-- How `_make_authenticated_request` terminates. -/
inductive RequestResult where
  | success
  | apiError
  | authError
deriving DecidableEq

/-- Observable trace of one `_make_authenticated_request` call: its
outcome, how many refresh calls and retried requests it made, and the
bearer token attached to the retry (if any). -/
structure RequestTrace where
  result : RequestResult
  refreshCalls : Nat
  retryCalls : Nat
  retryToken : Option String
deriving DecidableEq

/-- `_make_authenticated_request` (`api.py` lines 411-465): a 200
response is returned as is; a non-200 response is tested with
`_is_token_expired_error` — if expired, `_refresh_access_token` is
called and the same request is retried once with the refreshed token
(a non-200 retry raises `PPAContattoAPIError`; a `False` refresh raises
`PPAContattoAPIError`; an auth exception propagates); if not expired,
`PPAContattoAPIError` is raised immediately. -/
def makeAuthenticatedRequest (env : RequestEnv) : RequestTrace :=
  if env.resp1.status = 200 then
    ⟨.success, 0, 0, none⟩
  else if isTokenExpiredError env.resp1.status env.resp1.body then
    match env.refresh with
    | .raisedAuth => ⟨.authError, 1, 0, none⟩
    | .returnedFalse => ⟨.apiError, 1, 0, none⟩
    | .succeeded =>
      if env.resp2.status = 200 then
        ⟨.success, 1, 1, some env.tokenAfterRefresh⟩
      else
        ⟨.apiError, 1, 1, some env.tokenAfterRefresh⟩
  else ⟨.apiError, 0, 0, none⟩

/-- Fuel-driven worker for `pySplit`: scans `hay`, cutting at each
leftmost non-overlapping occurrence of `sep`; `acc` holds the current
piece reversed.  The fuel (instantiated to `hay.length`, enough since
every step consumes at least one character) keeps the recursion
structural. -/
def splitFuel (sep : List Char) : Nat → List Char → List Char → List (List Char)
  | _, [], acc => [acc.reverse]
  | 0, l, acc => [acc.reverse ++ l]
  | fuel + 1, c :: t, acc =>
    if sep.isPrefixOf (c :: t) then
      acc.reverse :: splitFuel sep fuel (t.drop (sep.length - 1)) []
    else
      splitFuel sep fuel t (c :: acc)

/-- Embedding of Python's `s.split(sep)` for a non-empty separator:
the pieces of `s` between consecutive occurrences of `sep`. -/
def pySplit (s sep : String) : List String :=
  (splitFuel sep.data s.data.length s.data []).map (fun l => ⟨l⟩)

/-- One entry of the reports list returned by
`GET /device/.../reports`, with the fields `get_latest_device_status`
reads: `report.get("target", "")` (string, defaulted), and
`report.get("createdAt")` / `report.get("name")` (possibly absent). -/
structure Report where
  target : String
  createdAt : Option String
  name : Option String
deriving DecidableEq

/-- The `latest_status` record built by `get_latest_device_status`
(`api.py` lines 561-566); every field starts out `None`. -/
structure LatestStatus where
  gate : Option String
  relay : Option String
  last_action : Option String
  last_user : Option String
deriving DecidableEq

/-- The all-absent record `{"gate": None, "relay": None,
"last_action": None, "last_user": None}`. -/
def emptyLatestStatus : LatestStatus := ⟨none, none, none, none⟩

/-- One iteration of the scan loop of `get_latest_device_status`
(`api.py` lines 568-585) on one report.  `target.split("gate: ")[1]`
raises `IndexError` when the separator does not occur (the split yields
a single element); this is the `.error` case.  The gate branch is an
`if`, the relay branch an `elif`, and the extraction and the
`last_action`/`last_user` assignment are each guarded by the field still
being `None`. -/
def scanStep (st : LatestStatus) (r : Report) : Except Unit LatestStatus :=
  if strContains r.target "gate:" then
    if st.gate = none then
      match (pySplit r.target "gate: ").get? 1 with
      | none => .error ()
      | some v =>
        let st := { st with gate := some v }
        if st.last_action = none then
          .ok { st with last_action := r.createdAt, last_user := r.name }
        else .ok st
    else .ok st
  else if strContains r.target "relay:" then
    if st.relay = none then
      match (pySplit r.target "relay: ").get? 1 with
      | none => .error ()
      | some v =>
        let st := { st with relay := some v }
        if st.last_action = none then
          .ok { st with last_action := r.createdAt, last_user := r.name }
        else .ok st
    else .ok st
  else .ok st

/-- The scan loop of `get_latest_device_status`: runs `scanStep` over
the reports in order, breaking as soon as both `gate` and `relay` are
set; an `IndexError` from a step aborts the whole scan. -/
def scanReports : LatestStatus → List Report → Except Unit LatestStatus
  | st, [] => .ok st
  | st, r :: rs =>
    match scanStep st r with
    | .error e => .error e
    | .ok st' =>
      if st'.gate.isSome && st'.relay.isSome then .ok st'
      else scanReports st' rs

/-- `get_latest_device_status` (`api.py` lines 555-599) as a function of
the outcome of the report fetch: a failed fetch, or any exception raised
during the scan, is caught by the enclosing `except` and the all-absent
record is returned; otherwise the scanned record is returned. -/
def getLatestDeviceStatus : Except Unit (List Report) → LatestStatus
  | .error _ => emptyLatestStatus
  | .ok reports =>
    match scanReports emptyLatestStatus reports with
    | .error _ => emptyLatestStatus
    | .ok st => st

/-- A gate/relay pair of optional status strings; used both for a
device's `latest_status`/`status` dictionaries (as far as
`_handle_device_update` touches them) and for the payload the WebSocket
callback delivers. -/
structure StatusPair where
  gate : Option String
  relay : Option String
deriving DecidableEq

/-- A device record in the coordinator's `self.data["devices"]` list,
restricted to the fields `_handle_device_update` reads or writes. -/
structure DeviceRecord where
  serial : String
  latest_status : StatusPair
  status : StatusPair
deriving DecidableEq

/-- The gate block of the per-record body of `_handle_device_update`
(`__init__.py` lines 97-103): when the incoming gate value is present
and not `None` and differs from the record's current `latest_status`
value, both `latest_status` and the mirrored `status` field are set and
the `data_changed` flag is raised. -/
def updateGate : DeviceRecord → Option String → DeviceRecord × Bool
  | d, some g =>
    if d.latest_status.gate ≠ some g then
      ({ d with
          latest_status := { d.latest_status with gate := some g },
          status := { d.status with gate := some g } }, true)
    else (d, false)
  | d, none => (d, false)

/-- The relay block of `_handle_device_update` (`__init__.py` lines
105-112), same shape as the gate block. -/
def updateRelay : DeviceRecord → Option String → DeviceRecord × Bool
  | d, some r =>
    if d.latest_status.relay ≠ some r then
      ({ d with
          latest_status := { d.latest_status with relay := some r },
          status := { d.status with relay := some r } }, true)
    else (d, false)
  | d, none => (d, false)

/-- Both blocks in sequence, with the combined `data_changed` flag. -/
def updateRecord (d : DeviceRecord) (u : StatusPair) : DeviceRecord × Bool :=
  let a := updateGate d u.gate
  let b := updateRelay a.1 u.relay
  (b.1, a.2 || b.2)

/-- `_handle_device_update` (`__init__.py` lines 81-120) over the
coordinator's device list: finds the first record whose serial matches,
applies `updateRecord` to it and stops (the loop `break`s); the returned
flag says whether `async_set_updated_data` — the change notification —
was called.  A serial matching no record leaves the list unchanged and
creates nothing. -/
def handleDeviceUpdate : List DeviceRecord → String → StatusPair → List DeviceRecord × Bool
  | [], _, _ => ([], false)
  | d :: ds, serial, u =>
    if d.serial = serial then
      ((updateRecord d u).1 :: ds, (updateRecord d u).2)
    else
      ((d :: (handleDeviceUpdate ds serial u).1), (handleDeviceUpdate ds serial u).2)

/-- The payload of a `device/status` WebSocket event as read by
`_handle_device_status` (`api.py` lines 315-331): `data.get("serial")`
and `data.get("status", {})`, the status object modelled as an
association list of string keys and values. -/
structure DeviceStatusEvent where
  serial : Option String
  status : Option (List (String × String))
deriving DecidableEq

/-- `dict.get(k)` on the modelled status object. -/
def lookupKey (l : List (String × String)) (k : String) : Option String :=
  (l.find? (fun p => p.1 = k)).map (fun p => p.2)

/-- `_handle_device_status` (`api.py` lines 315-331): with the callback
set, the event is forwarded as `(serial, transformed)` only when
`device_serial and status` is truthy — a present, non-empty serial and
a present, non-empty status object; otherwise nothing is invoked. -/
def handleDeviceStatus (e : DeviceStatusEvent) : Option (String × StatusPair) :=
  match e.serial with
  | none => none
  | some s =>
    if s = "" then none
    else
      let st := e.status.getD []
      if st.isEmpty then none
      else some (s, ⟨lookupKey st "gate", lookupKey st "relay"⟩)

/-- The composition: a raw `device/status` event flowing through
`_handle_device_status` into `_handle_device_update`.  When the event is
dropped, the registry is untouched and no notification fires. -/
def processEvent (devices : List DeviceRecord) (e : DeviceStatusEvent) :
    List DeviceRecord × Bool :=
  match handleDeviceStatus e with
  | none => (devices, false)
  | some (s, u) => handleDeviceUpdate devices s u

/-- Interleaving model of two concurrent `authenticate` calls sharing
`self._auth_lock` (`api.py` lines 57 and 83).  Each task runs the
program: pc 0 `async with self._auth_lock` (acquire; blocks while held),
pc 1 start the POST to the auth endpoint, pc 2 the POST completes,
pc 3 leave the `async with` block (release), pc 4 done. -/
structure AuthPairState where
  lock : Bool
  pc1 : Fin 5
  pc2 : Fin 5
deriving DecidableEq, Fintype

/-- One enabled step of one `authenticate` task: given the lock state
and the task's pc, the new lock state and pc, or `none` when the task is
blocked (acquire while held) or finished. -/
def authExecStep (lock : Bool) (pc : Fin 5) : Option (Bool × Fin 5) :=
  if pc.val = 0 then (if lock then none else some (true, 1))
  else if pc.val = 1 then some (lock, 2)
  else if pc.val = 2 then some (lock, 3)
  else if pc.val = 3 then some (false, 4)
  else none

/-- The interleaving step relation (as a boolean) of the two
`authenticate` tasks: either task takes its one enabled step. -/
def authStepB (s t : AuthPairState) : Bool :=
  (match authExecStep s.lock s.pc1 with
   | some lp => decide (t = ⟨lp.1, lp.2, s.pc2⟩)
   | none => false)
  ||
  (match authExecStep s.lock s.pc2 with
   | some lp => decide (t = ⟨lp.1, s.pc1, lp.2⟩)
   | none => false)

/-- The step relation as a proposition. -/
def AuthStep (s t : AuthPairState) : Prop := authStepB s t = true

/-- Both tasks about to call `authenticate`, lock free. -/
def authInit : AuthPairState := ⟨false, 0, 0⟩

/-- States reachable by interleaving the two `authenticate` tasks. -/
def AuthReachable (s : AuthPairState) : Prop :=
  Relation.ReflTransGen AuthStep authInit s

/-- The task has entered the `async with` block and not yet left it. -/
def holdsLock (pc : Fin 5) : Bool := pc.val = 1 || pc.val = 2 || pc.val = 3

/-- The task's POST to the auth endpoint is in flight. -/
def midAuthCall (pc : Fin 5) : Bool := pc.val = 2

/-- Lock-discipline invariant: at most one task inside the `async with`
block, and the lock is held exactly when some task is inside it. -/
def authInv (s : AuthPairState) : Bool :=
  (!(holdsLock s.pc1 && holdsLock s.pc2))
    && (s.lock == (holdsLock s.pc1 || holdsLock s.pc2))

/-- Interleaving model of two concurrent `_refresh_access_token` calls
that both hold a refresh token (`api.py` lines 142-174): the renew POST
is issued WITHOUT taking `self._auth_lock`.  Each task runs: pc 0 start
the POST to the renew endpoint, pc 1 the POST completes, pc 2 done. -/
structure RenewPairState where
  pc1 : Fin 3
  pc2 : Fin 3
deriving DecidableEq, Fintype

/-- One enabled step of one `_refresh_access_token` task; no lock is
consulted anywhere. -/
def renewExecStep (pc : Fin 3) : Option (Fin 3) :=
  if pc.val = 0 then some 1 else if pc.val = 1 then some 2 else none

/-- The interleaving step relation (as a boolean) of the two refresh
tasks. -/
def renewStepB (s t : RenewPairState) : Bool :=
  (match renewExecStep s.pc1 with
   | some p => decide (t = ⟨p, s.pc2⟩)
   | none => false)
  ||
  (match renewExecStep s.pc2 with
   | some p => decide (t = ⟨s.pc1, p⟩)
   | none => false)

/-- The refresh step relation as a proposition. -/
def RenewStep (s t : RenewPairState) : Prop := renewStepB s t = true

/-- Both tasks about to refresh. -/
def renewInit : RenewPairState := ⟨0, 0⟩

/-- States reachable by interleaving the two refresh tasks. -/
def RenewReachable (s : RenewPairState) : Prop :=
  Relation.ReflTransGen RenewStep renewInit s

/-- How many renew-endpoint round trips are in flight. -/
def renewInFlight (s : RenewPairState) : Nat :=
  (if s.pc1.val = 1 then 1 else 0) + (if s.pc2.val = 1 then 1 else 0)

/-! ## Theorems -/

/-- C1: the reconnection delay computed by `ensure_websocket_connected`,
as a function of the reconnect count with base delay 5s and
`WEBSOCKET_MAX_RETRIES = 5`, equals the fixed base delay for counts
1..5, equals `base * 2` at count 6 and `base * 4` at count 7, and is
capped at `base * 60` for every count, the cap being attained from
count 11 on. -/
theorem C1_reconnect_backoff :
    (∀ c : Nat, 1 ≤ c → c ≤ 5 → reconnectDelay c = WEBSOCKET_RECONNECT_DELAY) ∧
    reconnectDelay 6 = WEBSOCKET_RECONNECT_DELAY * 2 ∧
    reconnectDelay 7 = WEBSOCKET_RECONNECT_DELAY * 4 ∧
    (∀ c : Nat, reconnectDelay c ≤ WEBSOCKET_RECONNECT_DELAY * 60) ∧
    (∀ c : Nat, 11 ≤ c → reconnectDelay c = WEBSOCKET_RECONNECT_DELAY * 60) := by
  refine ⟨?_, by decide, by decide, ?_, ?_⟩
  · intro c h1 h5
    interval_cases c <;> decide
  · intro c
    unfold reconnectDelay WEBSOCKET_RECONNECT_DELAY WEBSOCKET_MAX_RETRIES
    split
    · omega
    · have h := Nat.min_le_right (2 ^ (c - 5)) 60
      omega
  · intro c hc
    have h5 : ¬ c < WEBSOCKET_MAX_RETRIES := by
      unfold WEBSOCKET_MAX_RETRIES; omega
    have h60 : 60 ≤ 2 ^ (c - WEBSOCKET_MAX_RETRIES) := by
      calc 60 ≤ 2 ^ 6 := by norm_num
        _ ≤ 2 ^ (c - WEBSOCKET_MAX_RETRIES) := by
            apply Nat.pow_le_pow_right
            · norm_num
            · unfold WEBSOCKET_MAX_RETRIES; omega
    unfold reconnectDelay
    rw [if_neg h5, Nat.min_eq_right h60]

/-- Witness for C1 at concrete counts 3, 9 and 40. -/
theorem C1_reconnect_backoff_witness :
    reconnectDelay 3 = WEBSOCKET_RECONNECT_DELAY ∧
    reconnectDelay 9 ≤ WEBSOCKET_RECONNECT_DELAY * 60 ∧
    reconnectDelay 40 = WEBSOCKET_RECONNECT_DELAY * 60 :=
  ⟨C1_reconnect_backoff.1 3 (by decide) (by decide),
   C1_reconnect_backoff.2.2.2.1 9,
   C1_reconnect_backoff.2.2.2.2 40 (by decide)⟩

/-- C3: `_is_token_expired_error` returns true exactly when the status
is 401 or 400, or the status is 500 and the body names a token/JWT
expiry error (structurally or by case-insensitive substring on the known
phrases) — the spec-side predicate `specIsTokenExpired`; and it returns
false for every other status code. -/
theorem C3_token_expiry_characterization :
    ∀ (s : Nat) (b : ErrorText),
      isTokenExpiredError s b = specIsTokenExpired s b ∧
      (s ≠ 401 → s ≠ 400 → s ≠ 500 → isTokenExpiredError s b = false) := by
  intro s b
  constructor
  · unfold isTokenExpiredError specIsTokenExpired specBodyNamesExpiry
    by_cases h1 : s = 401
    · simp [h1]
    · by_cases h2 : s = 400
      · simp [h1, h2]
      · by_cases h3 : s = 500
        · subst h3
          simp [h1, h2]
        · simp [h1, h2, h3]
  · intro h1 h2 h3
    unfold isTokenExpiredError
    simp [h1, h2, h3]

/-- Witness for C3 at status 403: not treated as expiry. -/
theorem C3_token_expiry_characterization_witness :
    isTokenExpiredError 403 (.notJson "forbidden") = false :=
  (C3_token_expiry_characterization 403 (.notJson "forbidden")).2
    (by decide) (by decide) (by decide)

/-- C2 (evaluating the code at the failing input): with the auth
endpoint rejecting the credentials (HTTP 401) the config flow raises
`CannotConnect`, not `InvalidAuth`; the same `CannotConnect` arises for
an unreachable server (connection error, timeout); in fact
`validate_input` can never raise `InvalidAuth`, because
`test_connection` swallows every error into `False` and the
`InvalidAuth` raised on `False` is caught by `validate_input`'s own
`except Exception` clause and re-raised as `CannotConnect`.  The two
failure classes are thus conflated, against the claim. -/
theorem C2_setup_errors_conflated :
    validateInput ⟨.httpReject 401, .okList⟩ = .error .cannotConnect ∧
    validateInput ⟨.ok, .connectErr⟩ = .error .cannotConnect ∧
    validateInput ⟨.ok, .timeoutErr⟩ = .error .cannotConnect ∧
    stepUserErrorKey .cannotConnect = "cannot_connect" ∧
    (∀ s : SetupScenario,
      validateInput s = .ok () ∨ validateInput s = .error .cannotConnect) := by
  refine ⟨by decide, by decide, by decide, rfl, ?_⟩
  intro s
  unfold validateInput
  cases h : testConnection s <;> simp [h]

/-- C4: on a non-success first response, `_make_authenticated_request`
refreshes and retries exactly once with the refreshed token when the
expiry predicate holds (a non-200 retry ends in `APIError`), and raises
`APIError` immediately with no refresh and no retry when it does not. -/
theorem C4_retry_policy (env : RequestEnv) (hfail : env.resp1.status ≠ 200) :
    (isTokenExpiredError env.resp1.status env.resp1.body = true →
      (makeAuthenticatedRequest env).refreshCalls = 1 ∧
      (env.refresh = .succeeded →
        (makeAuthenticatedRequest env).retryCalls = 1 ∧
        (makeAuthenticatedRequest env).retryToken = some env.tokenAfterRefresh ∧
        (env.resp2.status ≠ 200 →
          (makeAuthenticatedRequest env).result = .apiError))) ∧
    (isTokenExpiredError env.resp1.status env.resp1.body = false →
      makeAuthenticatedRequest env = ⟨.apiError, 0, 0, none⟩) := by
  unfold makeAuthenticatedRequest
  constructor
  · intro hexp
    rw [if_neg hfail, if_pos hexp]
    cases henv : env.refresh
    · refine ⟨?_, ?_⟩
      · by_cases h2 : env.resp2.status = 200 <;> simp [h2]
      · intro _
        by_cases h2 : env.resp2.status = 200
        · simp [h2]
        · simp [h2]
    · exact ⟨rfl, by intro h; exact absurd h (by simp [henv] at h ⊢)⟩
    · exact ⟨rfl, by intro h; exact absurd h (by simp [henv] at h ⊢)⟩
  · intro hexp
    rw [if_neg hfail, if_neg (by simp [hexp])]

/-- Witness for C4: a 401 first response with a successful refresh and a
500 retry — one refresh, one retry, ending in `APIError`. -/
theorem C4_retry_policy_witness :
    (makeAuthenticatedRequest
      ⟨⟨401, .notJson "unauthorized"⟩, .succeeded, "tok2", ⟨500, .notJson "boom"⟩⟩).refreshCalls = 1 ∧
    (makeAuthenticatedRequest
      ⟨⟨401, .notJson "unauthorized"⟩, .succeeded, "tok2", ⟨500, .notJson "boom"⟩⟩).retryCalls = 1 ∧
    (makeAuthenticatedRequest
      ⟨⟨401, .notJson "unauthorized"⟩, .succeeded, "tok2", ⟨500, .notJson "boom"⟩⟩).result = .apiError := by
  have h := C4_retry_policy
    ⟨⟨401, .notJson "unauthorized"⟩, .succeeded, "tok2", ⟨500, .notJson "boom"⟩⟩ (by decide)
  have h1 := h.1 (by decide)
  have h2 := h1.2 rfl
  exact ⟨h1.1, h2.1, h2.2.2 (by decide)⟩

/-- If the separator occurs nowhere in the text, `splitFuel` yields the
single piece `acc.reverse ++ hay`. -/
theorem splitFuel_of_not_contains (sep : List Char) :
    ∀ (fuel : Nat) (hay acc : List Char), hay.length ≤ fuel →
      listContains hay sep = false →
      splitFuel sep fuel hay acc = [acc.reverse ++ hay] := by
  intro fuel
  induction fuel with
  | zero =>
    intro hay acc hlen _
    have h0 : hay = [] := List.eq_nil_of_length_eq_zero (Nat.le_zero.mp hlen)
    subst h0
    simp [splitFuel]
  | succ n ih =>
    intro hay acc hlen hc
    cases hay with
    | nil => simp [splitFuel]
    | cons c t =>
      unfold listContains at hc
      rw [Bool.or_eq_false_iff] at hc
      unfold splitFuel
      rw [if_neg (by simp [hc.1])]
      have ht : t.length ≤ n := by
        simp only [List.length_cons] at hlen
        omega
      rw [ih t (c :: acc) ht hc.2]
      simp

/-- A split on a separator that does not occur returns the whole string
as the only piece — so index `[1]` raises `IndexError`. -/
theorem pySplit_single (t sep : String) (h : strContains t sep = false) :
    pySplit t sep = [t] := by
  unfold pySplit
  rw [splitFuel_of_not_contains sep.data t.data.length t.data [] le_rfl h]
  obtain ⟨d⟩ := t
  rfl

/-- Preservation of the lock-discipline invariant by any interleaved
step of the two `authenticate` tasks. -/
theorem authInv_preserved :
    ∀ s t : AuthPairState, authInv s = true → authStepB s t = true →
      authInv t = true := by decide

/-- `updateGate` with an absent gate value is a no-op. -/
theorem updateGate_none (d : DeviceRecord) : updateGate d none = (d, false) := rfl

/-- `updateGate` when the incoming value differs: both fields set, flag
raised. -/
theorem updateGate_some_ne (d : DeviceRecord) (g : String)
    (h : d.latest_status.gate ≠ some g) :
    updateGate d (some g) =
      ({ d with
          latest_status := { d.latest_status with gate := some g },
          status := { d.status with gate := some g } }, true) := by
  simp only [updateGate]
  rw [if_pos h]

/-- `updateGate` when the incoming value equals the current
`latest_status` value: a no-op. -/
theorem updateGate_some_eq (d : DeviceRecord) (g : String)
    (h : d.latest_status.gate = some g) :
    updateGate d (some g) = (d, false) := by
  simp only [updateGate]
  rw [if_neg (not_not_intro h)]

/-- `updateRelay` with an absent relay value is a no-op. -/
theorem updateRelay_none (d : DeviceRecord) : updateRelay d none = (d, false) := rfl

/-- `updateRelay` when the incoming value differs. -/
theorem updateRelay_some_ne (d : DeviceRecord) (r : String)
    (h : d.latest_status.relay ≠ some r) :
    updateRelay d (some r) =
      ({ d with
          latest_status := { d.latest_status with relay := some r },
          status := { d.status with relay := some r } }, true) := by
  simp only [updateRelay]
  rw [if_pos h]

/-- `updateRelay` when the incoming value equals the current one. -/
theorem updateRelay_some_eq (d : DeviceRecord) (r : String)
    (h : d.latest_status.relay = some r) :
    updateRelay d (some r) = (d, false) := by
  simp only [updateRelay]
  rw [if_neg (not_not_intro h)]

/-- `updateGate` never touches the serial. -/
theorem updateGate_serial (d : DeviceRecord) (g? : Option String) :
    (updateGate d g?).1.serial = d.serial := by
  cases g? with
  | none => rfl
  | some g =>
    by_cases h : d.latest_status.gate = some g
    · rw [updateGate_some_eq d g h]
    · rw [updateGate_some_ne d g h]

/-- `updateRelay` never touches the serial. -/
theorem updateRelay_serial (d : DeviceRecord) (r? : Option String) :
    (updateRelay d r?).1.serial = d.serial := by
  cases r? with
  | none => rfl
  | some r =>
    by_cases h : d.latest_status.relay = some r
    · rw [updateRelay_some_eq d r h]
    · rw [updateRelay_some_ne d r h]

/-- `updateGate` never touches the relay fields. -/
theorem updateGate_relay_fields (d : DeviceRecord) (g? : Option String) :
    (updateGate d g?).1.latest_status.relay = d.latest_status.relay ∧
    (updateGate d g?).1.status.relay = d.status.relay := by
  cases g? with
  | none => exact ⟨rfl, rfl⟩
  | some g =>
    by_cases h : d.latest_status.gate = some g
    · rw [updateGate_some_eq d g h]; exact ⟨rfl, rfl⟩
    · rw [updateGate_some_ne d g h]; exact ⟨rfl, rfl⟩

/-- `updateRelay` never touches the gate fields. -/
theorem updateRelay_gate_fields (d : DeviceRecord) (r? : Option String) :
    (updateRelay d r?).1.latest_status.gate = d.latest_status.gate ∧
    (updateRelay d r?).1.status.gate = d.status.gate := by
  cases r? with
  | none => exact ⟨rfl, rfl⟩
  | some r =>
    by_cases h : d.latest_status.relay = some r
    · rw [updateRelay_some_eq d r h]; exact ⟨rfl, rfl⟩
    · rw [updateRelay_some_ne d r h]; exact ⟨rfl, rfl⟩

/-- After `updateGate d (some g)`, the gate value is `some g`. -/
theorem updateGate_gate_value (d : DeviceRecord) (g : String) :
    (updateGate d (some g)).1.latest_status.gate = some g := by
  by_cases h : d.latest_status.gate = some g
  · rw [updateGate_some_eq d g h]; exact h
  · rw [updateGate_some_ne d g h]

/-- After `updateRelay d (some r)`, the relay value is `some r`. -/
theorem updateRelay_relay_value (d : DeviceRecord) (r : String) :
    (updateRelay d (some r)).1.latest_status.relay = some r := by
  by_cases h : d.latest_status.relay = some r
  · rw [updateRelay_some_eq d r h]; exact h
  · rw [updateRelay_some_ne d r h]

/-- The gate flag is raised exactly when a present gate value differs. -/
theorem updateGate_flag (d : DeviceRecord) (g? : Option String) :
    ((updateGate d g?).2 = true ↔
      ∃ g, g? = some g ∧ d.latest_status.gate ≠ some g) := by
  cases g? with
  | none => simp [updateGate_none]
  | some g =>
    by_cases h : d.latest_status.gate = some g
    · rw [updateGate_some_eq d g h]
      simp [h]
    · rw [updateGate_some_ne d g h]
      simp [h]

/-- The relay flag is raised exactly when a present relay value
differs. -/
theorem updateRelay_flag (d : DeviceRecord) (r? : Option String) :
    ((updateRelay d r?).2 = true ↔
      ∃ r, r? = some r ∧ d.latest_status.relay ≠ some r) := by
  cases r? with
  | none => simp [updateRelay_none]
  | some r =>
    by_cases h : d.latest_status.relay = some r
    · rw [updateRelay_some_eq d r h]
      simp [h]
    · rw [updateRelay_some_ne d r h]
      simp [h]

/-- A lowered gate flag means `updateGate` left the record alone. -/
theorem updateGate_of_flag_false (d : DeviceRecord) (g? : Option String)
    (h : (updateGate d g?).2 = false) : (updateGate d g?).1 = d := by
  cases g? with
  | none => rfl
  | some g =>
    by_cases he : d.latest_status.gate = some g
    · rw [updateGate_some_eq d g he]
    · rw [updateGate_some_ne d g he] at h
      exact absurd h (by simp)

/-- A lowered relay flag means `updateRelay` left the record alone. -/
theorem updateRelay_of_flag_false (d : DeviceRecord) (r? : Option String)
    (h : (updateRelay d r?).2 = false) : (updateRelay d r?).1 = d := by
  cases r? with
  | none => rfl
  | some r =>
    by_cases he : d.latest_status.relay = some r
    · rw [updateRelay_some_eq d r he]
    · rw [updateRelay_some_ne d r he] at h
      exact absurd h (by simp)

/-- `updateRecord` unfolded to its two sequential blocks. -/
theorem updateRecord_eq (d : DeviceRecord) (u : StatusPair) :
    updateRecord d u =
      ((updateRelay (updateGate d u.gate).1 u.relay).1,
        (updateGate d u.gate).2 || (updateRelay (updateGate d u.gate).1 u.relay).2) := rfl

/-- `updateRecord` never touches the serial. -/
theorem updateRecord_serial (d : DeviceRecord) (u : StatusPair) :
    (updateRecord d u).1.serial = d.serial := by
  rw [updateRecord_eq]
  exact (updateRelay_serial _ _).trans (updateGate_serial _ _)

/-- `updateGate` is a no-op whenever any present incoming value already
equals the record's current gate value. -/
theorem updateGate_noop_of_value (e : DeviceRecord) (g? : Option String)
    (h : ∀ g, g? = some g → e.latest_status.gate = some g) :
    updateGate e g? = (e, false) := by
  cases g? with
  | none => rfl
  | some g => exact updateGate_some_eq e g (h g rfl)

/-- `updateRelay` is a no-op whenever any present incoming value already
equals the record's current relay value. -/
theorem updateRelay_noop_of_value (e : DeviceRecord) (r? : Option String)
    (h : ∀ r, r? = some r → e.latest_status.relay = some r) :
    updateRelay e r? = (e, false) := by
  cases r? with
  | none => rfl
  | some r => exact updateRelay_some_eq e r (h r rfl)

/-- Applying `updateRecord` twice with the same payload: the second
application changes nothing and reports no change. -/
theorem updateRecord_idem (d : DeviceRecord) (u : StatusPair) :
    updateRecord (updateRecord d u).1 u = ((updateRecord d u).1, false) := by
  have hA : updateGate (updateRecord d u).1 u.gate = ((updateRecord d u).1, false) := by
    apply updateGate_noop_of_value
    intro g hg
    rw [updateRecord_eq, (updateRelay_gate_fields _ _).1, hg]
    exact updateGate_gate_value d g
  have hB : updateRelay (updateRecord d u).1 u.relay = ((updateRecord d u).1, false) := by
    apply updateRelay_noop_of_value
    intro r hr
    rw [updateRecord_eq, hr]
    exact updateRelay_relay_value _ r
  conv_lhs => rw [updateRecord_eq]
  simp [hA, hB]

/-- An event whose serial matches no record is dropped: the list is
unchanged and no notification fires. -/
theorem handleDeviceUpdate_nomatch :
    ∀ (devices : List DeviceRecord) (serial : String) (u : StatusPair),
      (∀ x ∈ devices, x.serial ≠ serial) →
      handleDeviceUpdate devices serial u = (devices, false) := by
  intro devices serial u
  induction devices with
  | nil => intro _; rfl
  | cons d ds ih =>
    intro h
    simp only [handleDeviceUpdate]
    rw [if_neg (h d (List.mem_cons_self d ds))]
    rw [ih (fun x hx => h x (List.mem_cons_of_mem d hx))]

/-- C5 (amended): the `async with self._auth_lock` block does serialize
`authenticate` with itself — in no reachable interleaving of two
concurrent `authenticate` calls are both auth-endpoint POSTs in flight
at once.  (The renew POST of `_refresh_access_token` is NOT so
serialized; see the counterexample.) -/
theorem C5_authenticate_serialized (s : AuthPairState) (h : AuthReachable s) :
    ¬(midAuthCall s.pc1 = true ∧ midAuthCall s.pc2 = true) := by
  have hinv : authInv s = true := by
    induction h with
    | refl => decide
    | tail _ hstep ih => exact authInv_preserved _ _ ih hstep
  have himp : ∀ t : AuthPairState, authInv t = true →
      ¬(midAuthCall t.pc1 = true ∧ midAuthCall t.pc2 = true) := by decide
  exact himp s hinv

/-- Witness for C5 at the initial state. -/
theorem C5_authenticate_serialized_witness :
    ¬(midAuthCall authInit.pc1 = true ∧ midAuthCall authInit.pc2 = true) :=
  C5_authenticate_serialized authInit Relation.ReflTransGen.refl

/-- C5 counterexample: `_refresh_access_token` posts to the renew
endpoint WITHOUT holding `self._auth_lock`, so the interleaving in which
both concurrent refresh calls start their POST before either finishes is
reachable — two renew round trips are in flight at once, refuting the
claim that a second caller waits for the in-flight operation. -/
theorem C5_refresh_not_serialized_cex :
    RenewReachable ⟨1, 1⟩ ∧ renewInFlight ⟨1, 1⟩ = 2 := by
  constructor
  · have h1 : RenewStep renewInit ⟨1, 0⟩ := by
      show renewStepB renewInit ⟨1, 0⟩ = true
      decide
    have h2 : RenewStep ⟨1, 0⟩ ⟨1, 1⟩ := by
      show renewStepB ⟨1, 0⟩ ⟨1, 1⟩ = true
      decide
    exact Relation.ReflTransGen.tail (Relation.ReflTransGen.tail
      Relation.ReflTransGen.refl h1) h2
  · decide

/-- C6: on the reports list `[gate: open @ t2 by Alice, relay: off @ t1
by Bob]` the scan returns gate "open", relay "off", last action t2 by
Alice; and any failure of the fetch or of the scan yields the all-absent
record instead of propagating. -/
theorem C6_latest_status_scenario :
    getLatestDeviceStatus (.ok
      [⟨"gate: open", some "t2", some "Alice"⟩,
       ⟨"relay: off", some "t1", some "Bob"⟩]) =
      ⟨some "open", some "off", some "t2", some "Alice"⟩ ∧
    (∀ e : Unit, getLatestDeviceStatus (.error e) = emptyLatestStatus) ∧
    (∀ reports : List Report,
      scanReports emptyLatestStatus reports = .error () →
      getLatestDeviceStatus (.ok reports) = emptyLatestStatus) := by
  refine ⟨by decide, fun e => rfl, ?_⟩
  intro reports h
  simp only [getLatestDeviceStatus, h]

/-- Witness for C6's failure clause: a report whose target contains
"gate:" without the "gate: " separator makes the scan raise, and the
function returns the all-absent record. -/
theorem C6_latest_status_scenario_witness :
    getLatestDeviceStatus (.ok [⟨"gate:z", none, none⟩]) = emptyLatestStatus :=
  C6_latest_status_scenario.2.2 [⟨"gate:z", none, none⟩] (by decide)

/-- C7: per realtime event and field, `latest_status` and the mirrored
`status` field are updated exactly when the incoming present value
differs from the current `latest_status` value (the change flag is
raised exactly then, and a lowered flag means the record is untouched);
absent fields are left alone; an unknown serial changes nothing and
creates no record. -/
theorem C7_apply_event (d : DeviceRecord) (u : StatusPair) :
    ((updateRecord d u).2 = true ↔
      (∃ g, u.gate = some g ∧ d.latest_status.gate ≠ some g) ∨
      (∃ r, u.relay = some r ∧ d.latest_status.relay ≠ some r)) ∧
    (∀ g, u.gate = some g → d.latest_status.gate ≠ some g →
      (updateRecord d u).1.latest_status.gate = some g ∧
      (updateRecord d u).1.status.gate = some g) ∧
    (∀ g, u.gate = some g → d.latest_status.gate = some g →
      (updateRecord d u).1.latest_status.gate = d.latest_status.gate ∧
      (updateRecord d u).1.status.gate = d.status.gate) ∧
    (u.gate = none →
      (updateRecord d u).1.latest_status.gate = d.latest_status.gate ∧
      (updateRecord d u).1.status.gate = d.status.gate) ∧
    (∀ r, u.relay = some r → d.latest_status.relay ≠ some r →
      (updateRecord d u).1.latest_status.relay = some r ∧
      (updateRecord d u).1.status.relay = some r) ∧
    (∀ r, u.relay = some r → d.latest_status.relay = some r →
      (updateRecord d u).1.latest_status.relay = d.latest_status.relay ∧
      (updateRecord d u).1.status.relay = d.status.relay) ∧
    (u.relay = none →
      (updateRecord d u).1.latest_status.relay = d.latest_status.relay ∧
      (updateRecord d u).1.status.relay = d.status.relay) ∧
    ((updateRecord d u).2 = false → (updateRecord d u).1 = d) ∧
    (∀ (devices : List DeviceRecord) (serial : String),
      (∀ x ∈ devices, x.serial ≠ serial) →
      handleDeviceUpdate devices serial u = (devices, false)) := by
  have hrelay_pres : (updateGate d u.gate).1.latest_status.relay =
      d.latest_status.relay := (updateGate_relay_fields d u.gate).1
  refine ⟨?_, ?_, ?_, ?_, ?_, ?_, ?_, ?_, ?_⟩
  · rw [updateRecord_eq]
    simp only [Bool.or_eq_true]
    rw [updateGate_flag, updateRelay_flag, hrelay_pres]
  · intro g hg hne
    rw [updateRecord_eq]
    have e := updateGate_some_ne d g hne
    rw [hg, e]
    constructor
    · exact (updateRelay_gate_fields _ _).1
    · exact (updateRelay_gate_fields _ _).2
  · intro g hg he
    rw [updateRecord_eq]
    rw [hg, updateGate_some_eq d g he]
    exact updateRelay_gate_fields d u.relay
  · intro hg
    rw [updateRecord_eq, hg, updateGate_none]
    exact updateRelay_gate_fields d u.relay
  · intro r hr hne
    rw [updateRecord_eq, hr]
    have hne' : (updateGate d u.gate).1.latest_status.relay ≠ some r := by
      rw [hrelay_pres]; exact hne
    rw [updateRelay_some_ne _ r hne']
    exact ⟨rfl, rfl⟩
  · intro r hr he
    rw [updateRecord_eq, hr]
    have he' : (updateGate d u.gate).1.latest_status.relay = some r := by
      rw [hrelay_pres]; exact he
    rw [updateRelay_some_eq _ r he']
    rw [hrelay_pres, (updateGate_relay_fields d u.gate).2]
    exact ⟨he.symm ▸ rfl, rfl⟩
  · intro hr
    rw [updateRecord_eq, hr, updateRelay_none]
    exact updateGate_relay_fields d u.gate
  · intro hfalse
    rw [updateRecord_eq] at hfalse ⊢
    simp only [Bool.or_eq_false_iff] at hfalse
    have h1 := updateGate_of_flag_false d u.gate hfalse.1
    have h2 := updateRelay_of_flag_false _ u.relay hfalse.2
    rw [h2, h1]
  · exact fun devices serial h => handleDeviceUpdate_nomatch devices serial u h

/-- Witness for C7: a payload with a new gate value and an absent relay
on a one-record registry of a different serial, and on the record
itself. -/
theorem C7_apply_event_witness :
    (updateRecord ⟨"S1", ⟨some "closed", some "off"⟩, ⟨some "closed", some "off"⟩⟩
        ⟨some "open", none⟩).1.latest_status.gate = some "open" ∧
    handleDeviceUpdate [⟨"S1", ⟨some "closed", some "off"⟩, ⟨some "closed", some "off"⟩⟩]
        "S2" ⟨some "open", none⟩ =
      ([⟨"S1", ⟨some "closed", some "off"⟩, ⟨some "closed", some "off"⟩⟩], false) := by
  have h := C7_apply_event
    ⟨"S1", ⟨some "closed", some "off"⟩, ⟨some "closed", some "off"⟩⟩ ⟨some "open", none⟩
  exact ⟨(h.2.1 "open" rfl (by decide)).1,
    h.2.2.2.2.2.2.2.2 [⟨"S1", ⟨some "closed", some "off"⟩, ⟨some "closed", some "off"⟩⟩]
      "S2" (by decide)⟩

/-- C8: applying the same realtime event twice in a row is idempotent —
the second application leaves the device list unchanged and reports
`changed = false`, so no second notification fires. -/
theorem C8_apply_event_idempotent :
    ∀ (devices : List DeviceRecord) (serial : String) (u : StatusPair),
      handleDeviceUpdate (handleDeviceUpdate devices serial u).1 serial u =
        ((handleDeviceUpdate devices serial u).1, false) := by
  intro devices serial u
  induction devices with
  | nil => rfl
  | cons d ds ih =>
    by_cases h : d.serial = serial
    · simp only [handleDeviceUpdate, if_pos h]
      rw [if_pos ((updateRecord_serial d u).trans h)]
      rw [updateRecord_idem]
    · simp only [handleDeviceUpdate, if_neg h]
      rw [ih]

/-- C9: a `device/status` event lacking a serial, lacking a status
object, or carrying an empty status object is dropped by
`_handle_device_status` before the callback: no record is touched and no
notification fires. -/
theorem C9_malformed_event_dropped (e : DeviceStatusEvent)
    (h : e.serial = none ∨ e.status = none ∨ e.status = some []) :
    handleDeviceStatus e = none ∧
    ∀ devices : List DeviceRecord, processEvent devices e = (devices, false) := by
  have hnone : handleDeviceStatus e = none := by
    unfold handleDeviceStatus
    rcases hs : e.serial with _ | s
    · rfl
    · rcases h with h | h | h
      · rw [hs] at h; exact absurd h (by simp)
      · by_cases hstr : s = "" <;> simp [hstr, h]
      · by_cases hstr : s = "" <;> simp [hstr, h]
  refine ⟨hnone, fun devices => ?_⟩
  unfold processEvent
  rw [hnone]

/-- Witness for C9: an event with a status object but no serial. -/
theorem C9_malformed_event_dropped_witness :
    handleDeviceStatus ⟨none, some [("gate", "open")]⟩ = none :=
  (C9_malformed_event_dropped ⟨none, some [("gate", "open")]⟩ (Or.inl rfl)).1

/-- C10 (amended): when the scan of `get_latest_device_status` processes
a report whose target contains `"gate:"` but not the separator
`"gate: "` WHILE the gate field is still unset (resp. contains
`"relay:"` but not `"relay: "` while the relay field is still unset and
the gate label is absent), the `split(...)[1]` extraction raises
`IndexError`, the scan aborts, and the function returns the all-absent
record, discarding values extracted from earlier reports.  (If the
field was already set when such a report is scanned, the guarded
extraction is skipped and no exception occurs — see the
counterexample.) -/
theorem C10_bad_separator_aborts (st : LatestStatus) (r : Report)
    (rs : List Report) :
    (strContains r.target "gate:" = true → strContains r.target "gate: " = false →
      st.gate = none → scanReports st (r :: rs) = .error ()) ∧
    (strContains r.target "gate:" = false → strContains r.target "relay:" = true →
      strContains r.target "relay: " = false → st.relay = none →
      scanReports st (r :: rs) = .error ()) ∧
    (∀ reports : List Report,
      scanReports emptyLatestStatus reports = .error () →
      getLatestDeviceStatus (.ok reports) = emptyLatestStatus) := by
  refine ⟨?_, ?_, ?_⟩
  · intro hg hsep hnone
    have hstep : scanStep st r = .error () := by
      unfold scanStep
      rw [pySplit_single _ _ hsep]
      simp [hg, hnone]
    simp only [scanReports, hstep]
  · intro hg hr hsep hnone
    have hstep : scanStep st r = .error () := by
      unfold scanStep
      rw [pySplit_single _ _ hsep]
      simp [hg, hr, hnone]
    simp only [scanReports, hstep]
  · intro reports h
    simp only [getLatestDeviceStatus, h]

/-- Witness for C10: a relay value already extracted from the first
report is discarded when the second report's malformed gate label aborts
the scan. -/
theorem C10_bad_separator_aborts_witness :
    scanReports ⟨none, some "off", some "t1", some "Bob"⟩
      [⟨"gate:x", some "t0", some "Eve"⟩] = .error () :=
  (C10_bad_separator_aborts ⟨none, some "off", some "t1", some "Bob"⟩
    ⟨"gate:x", some "t0", some "Eve"⟩ []).1 (by decide) (by decide) rfl

/-- C10 counterexample: the second report's target contains `"gate:"`
without the separator `"gate: "`, yet `get_latest_device_status` does
NOT return the all-absent record — the gate value was already set by the
first report, so the guarded extraction never runs and the scan
completes, refuting the claim for "any scanned report". -/
theorem C10_bad_separator_cex :
    getLatestDeviceStatus (.ok
      [⟨"gate: open", some "t2", some "Alice"⟩,
       ⟨"gate:x", some "t1", some "Bob"⟩]) =
      ⟨some "open", none, some "t2", some "Alice"⟩ ∧
    (⟨some "open", none, some "t2", some "Alice"⟩ : LatestStatus) ≠
      emptyLatestStatus := by
  constructor
  · decide
  · decide

end PPAContatto
